import Mathlib

/-!
Shallow embedding of the penguin classification prediction service
(`app/main.py`): the categorical encoder (`pd.get_dummies` on a single-row
DataFrame), the schema reconciler (`df.reindex(columns=FEATURE_COLUMNS,
fill_value=0)`), the label lookup (`LABEL_CLASSES[int(pred)]` with Python
list-indexing semantics), the surrounding `/predict` handler with its
try/except boundary, and the pydantic validation layer declared by the
`PenguinFeatures` request model.

Numeric payloads are embedded as `Rat`: the serving pipeline only moves the
numbers around (no arithmetic on them happens in the code under study), so
the embedding is faithful up to the choice of numeric carrier.  The trained
XGBoost model is opaque in the source ("predict(vector) -> integer index")
and is embedded as a parameter `List Rat → Option Int`, where `none` models
the numeric predict call raising an exception.
-/

/-- Valid penguin sex options (`class Sex(str, Enum)` in `app/main.py`). -/
inductive Sex where
  | male
  | female
deriving DecidableEq, Repr

/-- Valid penguin island options (`class Island(str, Enum)` in `app/main.py`). -/
inductive Island where
  | Torgersen
  | Biscoe
  | Dream
deriving DecidableEq, Repr

/-- The string value of a `Sex` enum member, as pydantic serializes it. -/
def sexStr : Sex → String
  | .male => "male"
  | .female => "female"

/-- The string value of an `Island` enum member, as pydantic serializes it. -/
def islandStr : Island → String
  | .Torgersen => "Torgersen"
  | .Biscoe => "Biscoe"
  | .Dream => "Dream"

/-- Request schema for the `/predict` endpoint (`class PenguinFeatures` in
`app/main.py`): four continuous measurements, an integer year, and the two
categorical fields. -/
structure PenguinFeatures where
  bill_length_mm : Rat
  bill_depth_mm : Rat
  flipper_length_mm : Rat
  body_mass_g : Rat
  year : Int
  sex : Sex
  island : Island
deriving DecidableEq, Repr

/-- An EncodedVector: the single-row DataFrame after one-hot expansion,
viewed as a mapping from column name to numeric value (association list,
keys unique by construction in the code under study). -/
abbrev EncodedVector := List (String × Rat)

/-- Models lines 118-119 of `app/main.py`:
`df = pd.DataFrame([payload]); df = pd.get_dummies(df, columns=["sex", "island"])`.
On a single row, `get_dummies` keeps the non-categorical columns unchanged and
appends exactly one indicator column per categorical column, named
`<field>_<value>` and holding 1, for the value actually present in the row. -/
def encodeRow (f : PenguinFeatures) : EncodedVector :=
  [ ("bill_length_mm", f.bill_length_mm),
    ("bill_depth_mm", f.bill_depth_mm),
    ("flipper_length_mm", f.flipper_length_mm),
    ("body_mass_g", f.body_mass_g),
    ("year", (f.year : Rat)),
    ("sex_" ++ sexStr f.sex, 1),
    ("island_" ++ islandStr f.island, 1) ]

/-- Models line 120 of `app/main.py`:
`df = df.reindex(columns=FEATURE_COLUMNS, fill_value=0)`.
For each requested column, in order, take the row's value for that column
when present and 0 otherwise; columns of the row that are not requested do
not appear in the result. -/
def reindexRow (ev : EncodedVector) (cols : List String) : List Rat :=
  cols.map (fun c => ((ev.lookup c).getD 0))

/-- Python list indexing, `xs[i]`: a negative index counts from the end;
an index that is still out of bounds after that adjustment raises
`IndexError`, modeled as `none`.  Models `LABEL_CLASSES[int(pred)]` on
line 124 of `app/main.py`. -/
def pyIndex {α : Type} (xs : List α) (i : Int) : Option α :=
  let j : Int := if i < 0 then (xs.length : Int) + i else i
  if j < 0 then none else xs[j.toNat]?

/-- One structured per-field validation error: (field name, message),
one entry of the `exc.errors()` list the 400 handler returns. -/
abbrev FieldError := String × String

/-- The responses the `/predict` endpoint can produce: a success payload
`{"species": ...}`, the 400 validation response with structured per-field
detail, or an HTTP error with an opaque string detail (the 500 path). -/
inductive Response where
  | ok (species : String)
  | clientError (status : Nat) (detail : List FieldError)
  | serverError (status : Nat) (detail : String)
deriving DecidableEq, Repr

/-- The body of the `predict` handler after validation (lines 115-129 of
`app/main.py`): encode, reindex against `FEATURE_COLUMNS`, call the model,
index `LABEL_CLASSES` with the predicted integer; any exception from the
predict call or the label lookup is caught and turned into
`HTTPException(500, "Internal prediction error")`. -/
def predict (model : List Rat → Option Int) (feature_columns label_classes : List String)
    (f : PenguinFeatures) : Response :=
  let df := reindexRow (encodeRow f) feature_columns
  match model df with
  | none => .serverError 500 "Internal prediction error"
  | some pred =>
    match pyIndex label_classes pred with
    | none => .serverError 500 "Internal prediction error"
    | some species => .ok species

/-- A JSON value as it arrives in a request field (the fragment of JSON the
declared fields can meet: a number, a string, or null). -/
inductive Json where
  | num (q : Rat)
  | str (s : String)
  | null
deriving DecidableEq, Repr

/-- A raw (not yet validated) `/predict` request body: each declared field
either absent or holding some JSON value. -/
structure RawRequest where
  bill_length_mm : Option Json
  bill_depth_mm : Option Json
  flipper_length_mm : Option Json
  body_mass_g : Option Json
  year : Option Json
  sex : Option Json
  island : Option Json
deriving DecidableEq, Repr

/-- Validation of one `float`-typed field of `PenguinFeatures`: the field
must be present and be a JSON number. -/
def checkFloat (name : String) (v : Option Json) : Except FieldError Rat :=
  match v with
  | none => .error (name, "Field required")
  | some (.num q) => .ok q
  | some _ => .error (name, "Input should be a valid number")

/-- Validation of the `int`-typed `year` field: present, a JSON number with
an integral value. -/
def checkInt (name : String) (v : Option Json) : Except FieldError Int :=
  match v with
  | none => .error (name, "Field required")
  | some (.num q) => if q.den = 1 then .ok q.num else .error (name, "Input should be a valid integer")
  | some _ => .error (name, "Input should be a valid integer")

/-- Validation of the `sex` field against the `Sex` enum vocabulary. -/
def checkSex (v : Option Json) : Except FieldError Sex :=
  match v with
  | none => .error ("sex", "Field required")
  | some (.str "male") => .ok .male
  | some (.str "female") => .ok .female
  | some _ => .error ("sex", "Input should be male or female")

/-- Validation of the `island` field against the `Island` enum vocabulary. -/
def checkIsland (v : Option Json) : Except FieldError Island :=
  match v with
  | none => .error ("island", "Field required")
  | some (.str "Torgersen") => .ok .Torgersen
  | some (.str "Biscoe") => .ok .Biscoe
  | some (.str "Dream") => .ok .Dream
  | some _ => .error ("island", "Input should be Torgersen, Biscoe or Dream")

/-- The error component of one field check, as a (possibly empty) list. -/
def errOf {α : Type} : Except FieldError α → List FieldError
  | .error e => [e]
  | .ok _ => []

/-- All structured per-field errors of a raw request, in field order:
the `exc.errors()` payload of the 400 response. -/
def fieldErrors (r : RawRequest) : List FieldError :=
  errOf (checkFloat "bill_length_mm" r.bill_length_mm) ++
  errOf (checkFloat "bill_depth_mm" r.bill_depth_mm) ++
  errOf (checkFloat "flipper_length_mm" r.flipper_length_mm) ++
  errOf (checkFloat "body_mass_g" r.body_mass_g) ++
  errOf (checkInt "year" r.year) ++
  errOf (checkSex r.sex) ++
  errOf (checkIsland r.island)

/-- Pydantic validation of a raw request against the `PenguinFeatures`
model: either every declared field validates and a typed record is built,
or the list of all per-field errors is reported. -/
def validateRequest (r : RawRequest) : Except (List FieldError) PenguinFeatures :=
  match checkFloat "bill_length_mm" r.bill_length_mm,
        checkFloat "bill_depth_mm" r.bill_depth_mm,
        checkFloat "flipper_length_mm" r.flipper_length_mm,
        checkFloat "body_mass_g" r.body_mass_g,
        checkInt "year" r.year,
        checkSex r.sex,
        checkIsland r.island with
  | .ok bl, .ok bd, .ok fl, .ok bm, .ok y, .ok s, .ok i =>
      .ok ⟨bl, bd, fl, bm, y, s, i⟩
  | _, _, _, _, _, _, _ => .error (fieldErrors r)

/-- The process state loaded once at startup: the model and the two
metadata arrays (`model`, `FEATURE_COLUMNS`, `LABEL_CLASSES`). -/
structure ServerState where
  model : List Rat → Option Int
  feature_columns : List String
  label_classes : List String

/-- One full request cycle of the app: FastAPI/pydantic validation first
(a failure is answered by `validation_exception_handler` with HTTP 400 and
the structured error list, before the handler body runs), then the
`predict` handler body.  The returned state is the state the process is
left in: nothing in the handler assigns to the startup-loaded globals. -/
def handleRequest (st : ServerState) (r : RawRequest) : Response × ServerState :=
  match validateRequest r with
  | .error es => (.clientError 400 es, st)
  | .ok f => (predict st.model st.feature_columns st.label_classes f, st)

/-- The indicator column names the `sex` field can produce (the one-hot
segment of `sex`, per the `<field>_<value>` naming convention). -/
def sexIndicatorCols : List String := ["sex_male", "sex_female"]

/-- The indicator column names the `island` field can produce (the one-hot
segment of `island`). -/
def islandIndicatorCols : List String := ["island_Torgersen", "island_Biscoe", "island_Dream"]

/-- The sum of the entries of a reconciled vector sitting at the positions
whose column name belongs to a given one-hot segment. -/
def segmentSum (cols : List String) (v : List Rat) (seg : List String) : Rat :=
  (((cols.zip v).filter (fun cv => seg.contains cv.fst)).map (fun cv => cv.snd)).sum

/-! ## Helper lemmas (shared, not claim theorems) -/

lemma reindexRow_length (ev : EncodedVector) (cols : List String) :
    (reindexRow ev cols).length = cols.length := by
  simp [reindexRow]

lemma reindexRow_getD (ev : EncodedVector) (cols : List String) (i : Fin cols.length) :
    (reindexRow ev cols).getD i 0 = ((ev.lookup (cols.get i)).getD 0) := by
  simp [reindexRow, List.getD_eq_getElem?_getD, List.getElem?_map]

lemma lookup_filter_mem (ev : EncodedVector) (cols : List String) (c : String)
    (hc : c ∈ cols) :
    (ev.filter (fun kv => cols.contains kv.fst)).lookup c = ev.lookup c := by
  induction ev with
  | nil => rfl
  | cons kv tl ih =>
    obtain ⟨k, v⟩ := kv
    by_cases hk : cols.contains k = true
    · have hf : List.filter (fun kv => cols.contains kv.fst) ((k, v) :: tl)
          = (k, v) :: List.filter (fun kv => cols.contains kv.fst) tl := by
        rw [List.filter_cons_of_pos]
        exact hk
      rw [hf]
      by_cases he : c = k
      · subst he
        simp [List.lookup]
      · have hbe : (c == k) = false := by simpa using he
        simp only [List.lookup, hbe]
        exact ih
    · have he : ¬ c = k := fun h => hk (h ▸ List.elem_eq_true_of_mem hc)
      have hbe : (c == k) = false := by simpa using he
      have hf : List.filter (fun kv => cols.contains kv.fst) ((k, v) :: tl)
          = List.filter (fun kv => cols.contains kv.fst) tl := by
        rw [List.filter_cons_of_neg]
        simpa using hk
      rw [hf]
      simp only [List.lookup, hbe]
      exact ih

/-- A concrete valid record: the spec's scenario input
`{bill_length_mm: 40.0, ..., sex: "male", island: "Biscoe"}`. -/
def fSample : PenguinFeatures :=
  { bill_length_mm := 40, bill_depth_mm := 18, flipper_length_mm := 195,
    body_mass_g := 4000, year := 2008, sex := .male, island := .Biscoe }

/-- A concrete `feature_columns` list of the shape the training pipeline
produces (continuous columns followed by the alphabetically ordered one-hot
expansions of `sex` and `island`). -/
def fcSample : List String :=
  ["bill_length_mm", "bill_depth_mm", "flipper_length_mm", "body_mass_g", "year",
   "sex_female", "sex_male", "island_Biscoe", "island_Dream", "island_Torgersen"]

/-- A concrete `label_classes` list of the shape the training pipeline
produces for the penguins dataset. -/
def lcSample : List String := ["Adelie", "Chinstrap", "Gentoo"]

/-- A concrete raw request that passes validation (the spec's scenario
record, as JSON). -/
def rawSample : RawRequest :=
  { bill_length_mm := some (.num 40), bill_depth_mm := some (.num 18),
    flipper_length_mm := some (.num 195), body_mass_g := some (.num 4000),
    year := some (.num 2008), sex := some (.str "male"), island := some (.str "Biscoe") }

/-! ## C1: the Schema Reconciler -/

/-- C1: for every EncodedVector and every `feature_columns` list, the
reconciler (`df.reindex(columns=FEATURE_COLUMNS, fill_value=0)`) produces a
vector of length exactly `cols.length` whose position `i` holds the
EncodedVector's value for `cols[i]` when that key is present and 0
otherwise; every key of the EncodedVector outside `cols` is dropped without
any effect (removing those keys first leaves the result unchanged, and the
reconciler is a total function, so no error is raised). -/
theorem C1_reconciler_aligns (ev : EncodedVector) (cols : List String) :
    (reindexRow ev cols).length = cols.length ∧
    (∀ i : Fin cols.length,
      (reindexRow ev cols).getD i 0 = ((ev.lookup (cols.get i)).getD 0)) ∧
    reindexRow (ev.filter (fun kv => cols.contains kv.fst)) cols = reindexRow ev cols := by
  refine ⟨reindexRow_length ev cols, fun i => reindexRow_getD ev cols i, ?_⟩
  unfold reindexRow
  apply List.map_congr_left
  intro c hc
  rw [lookup_filter_mem ev cols c hc]

/-- Witness for C1 at a concrete EncodedVector (whose `extra` key is not a
feature column and is dropped) and the concrete column list. -/
theorem C1_reconciler_aligns_witness :
    (reindexRow [("extra", 7), ("sex_male", 1)] fcSample).length = fcSample.length ∧
    (reindexRow [("extra", 7), ("sex_male", 1)] fcSample).getD 6 0 = 1 := by
  have h := C1_reconciler_aligns [("extra", 7), ("sex_male", 1)] fcSample
  refine ⟨h.1, ?_⟩
  have h6 := h.2.1 ⟨6, by decide⟩
  rw [h6]
  rfl

/-! ## C3: the Categorical Encoder -/

/-- C3: for every record, the encoder (`pd.get_dummies` on the single-row
DataFrame) yields an EncodedVector whose columns are exactly the four
continuous fields and the year with unchanged values, plus one indicator
column per categorical field named `<field>_<value>` and set to 1 for the
record's actual value; no indicator column exists for any other value of
either categorical field (last conjunct: the full column-name list). -/
theorem C3_encoder_columns (f : PenguinFeatures) :
    (encodeRow f).lookup "bill_length_mm" = some f.bill_length_mm ∧
    (encodeRow f).lookup "bill_depth_mm" = some f.bill_depth_mm ∧
    (encodeRow f).lookup "flipper_length_mm" = some f.flipper_length_mm ∧
    (encodeRow f).lookup "body_mass_g" = some f.body_mass_g ∧
    (encodeRow f).lookup "year" = some (f.year : Rat) ∧
    (encodeRow f).lookup ("sex_" ++ sexStr f.sex) = some 1 ∧
    (encodeRow f).lookup ("island_" ++ islandStr f.island) = some 1 ∧
    (∀ s : Sex, s ≠ f.sex → (encodeRow f).lookup ("sex_" ++ sexStr s) = none) ∧
    (∀ j : Island, j ≠ f.island → (encodeRow f).lookup ("island_" ++ islandStr j) = none) ∧
    (encodeRow f).map Prod.fst =
      ["bill_length_mm", "bill_depth_mm", "flipper_length_mm", "body_mass_g", "year",
       "sex_" ++ sexStr f.sex, "island_" ++ islandStr f.island] := by
  obtain ⟨a, b, c, d, y, sx, il⟩ := f
  cases sx <;> cases il <;>
    refine ⟨rfl, rfl, rfl, rfl, rfl, rfl, rfl, fun s hs => ?_, fun j hj => ?_, rfl⟩ <;>
    first
      | (cases s <;> first | exact absurd rfl hs | rfl)
      | (cases j <;> first | exact absurd rfl hj | rfl)

/-- Witness for C3 at the concrete sample record: the record's own `sex`
indicator is present with value 1 and the other `sex` value has no column. -/
theorem C3_encoder_columns_witness :
    (encodeRow fSample).lookup ("sex_" ++ sexStr fSample.sex) = some 1 ∧
    Sex.female ≠ fSample.sex ∧
    (encodeRow fSample).lookup ("sex_" ++ sexStr Sex.female) = none := by
  refine ⟨(C3_encoder_columns fSample).2.2.2.2.2.1, by decide,
    (C3_encoder_columns fSample).2.2.2.2.2.2.2.1 Sex.female (by decide)⟩

/-! ## Python indexing lemmas for `LABEL_CLASSES[int(pred)]` -/

lemma pyIndex_in_range {α : Type} (xs : List α) (k : Int) (hk0 : 0 ≤ k)
    (hklt : k < (xs.length : Int)) :
    ∃ h : k.toNat < xs.length, pyIndex xs k = some (xs.get ⟨k.toNat, h⟩) := by
  have h : k.toNat < xs.length := by omega
  refine ⟨h, ?_⟩
  unfold pyIndex
  simp only [if_neg (not_lt.mpr hk0)]
  rw [List.getElem?_eq_getElem h]
  rfl

lemma pyIndex_neg_in_range {α : Type} (xs : List α) (k : Int) (d : α)
    (hlow : -(xs.length : Int) ≤ k) (hneg : k < 0) :
    pyIndex xs k = some (xs.getD ((xs.length : Int) + k).toNat d) := by
  have hj0 : (0 : Int) ≤ (xs.length : Int) + k := by omega
  have hjlt : ((xs.length : Int) + k).toNat < xs.length := by omega
  unfold pyIndex
  simp only [if_pos hneg, if_neg (not_lt.mpr hj0)]
  rw [List.getElem?_eq_getElem hjlt, List.getD_eq_getElem?_getD,
    List.getElem?_eq_getElem hjlt]
  rfl

lemma pyIndex_out_of_bounds {α : Type} (xs : List α) (k : Int)
    (h : k < -(xs.length : Int) ∨ (xs.length : Int) ≤ k) :
    pyIndex xs k = none := by
  unfold pyIndex
  rcases h with h | h
  · have hneg : k < 0 := by omega
    have hj : (xs.length : Int) + k < 0 := by omega
    simp only [if_pos hneg, if_pos hj]
  · have hpos : ¬ k < 0 := by omega
    simp only [if_neg hpos]
    apply List.getElem?_eq_none
    omega

/-! ## C6, C7, C10: the error boundary of the predict handler -/

/-- C6: whenever the numeric predict call raises (modeled as the opaque
model returning `none`) or the label lookup raises `IndexError` (modeled as
`pyIndex` returning `none`), the handler's `except` branch answers with the
opaque HTTP 500 response `"Internal prediction error"`, and in particular
never with a success payload. -/
theorem C6_internal_error_response (m : List Rat → Option Int)
    (fc lc : List String) (f : PenguinFeatures)
    (h : m (reindexRow (encodeRow f) fc) = none ∨
         ∃ k, m (reindexRow (encodeRow f) fc) = some k ∧ pyIndex lc k = none) :
    predict m fc lc f = .serverError 500 "Internal prediction error" ∧
    ∀ sp, predict m fc lc f ≠ .ok sp := by
  have hmain : predict m fc lc f = .serverError 500 "Internal prediction error" := by
    rcases h with h | ⟨k, hk, hpy⟩
    · simp [predict, h]
    · simp [predict, hk, hpy]
  exact ⟨hmain, fun sp hsp => by rw [hmain] at hsp; cases hsp⟩

/-- Witness for C6: a model whose predict call always raises. -/
theorem C6_internal_error_response_witness :
    predict (fun _ => none) fcSample lcSample fSample
      = Response.serverError 500 "Internal prediction error" :=
  (C6_internal_error_response (fun _ => none) fcSample lcSample fSample (Or.inl rfl)).1

/-- C7 as stated is false: with the three sample label classes, a model
emitting class index -1 — not a valid 0-based index into `label_classes` —
produces a SUCCESS payload `"Gentoo"` (Python negative indexing), not the
internal-error response the claim requires for every out-of-range index. -/
theorem C7_counterexample :
    (¬ (0 ≤ (-1 : Int) ∧ (-1 : Int) < (lcSample.length : Int))) ∧
    predict (fun _ => some (-1)) fcSample lcSample fSample = Response.ok "Gentoo" := by
  exact ⟨by decide, rfl⟩

/-- C7 (amended): if the model emits an index `k` with `k ≥ len(label_classes)`
or `k < -len(label_classes)` — the indices on which Python list indexing
raises `IndexError` — the handler reports the generic opaque 500 failure and
never a success payload; indices in `[-len, 0)` are NOT caught (see C10). -/
theorem C7_index_error_caught (m : List Rat → Option Int)
    (fc lc : List String) (f : PenguinFeatures) (k : Int)
    (hm : m (reindexRow (encodeRow f) fc) = some k)
    (hk : k < -(lc.length : Int) ∨ (lc.length : Int) ≤ k) :
    predict m fc lc f = .serverError 500 "Internal prediction error" ∧
    ∀ sp, predict m fc lc f ≠ .ok sp := by
  have hpy : pyIndex lc k = none := pyIndex_out_of_bounds lc k hk
  have hmain : predict m fc lc f = .serverError 500 "Internal prediction error" := by
    simp [predict, hm, hpy]
  exact ⟨hmain, fun sp hsp => by rw [hmain] at hsp; cases hsp⟩

/-- Witness for the amended C7: a model emitting index 5 against three
label classes is answered with the opaque 500 response. -/
theorem C7_index_error_caught_witness :
    predict (fun _ => some 5) fcSample lcSample fSample
      = Response.serverError 500 "Internal prediction error" :=
  (C7_index_error_caught (fun _ => some 5) fcSample lcSample fSample 5 rfl
    (Or.inr (by decide))).1

/-- C10: when the model emits a negative index `k` with
`-len(label_classes) ≤ k < 0`, the label lookup `LABEL_CLASSES[int(pred)]`
succeeds by Python negative indexing and the handler returns a SUCCESS
payload holding `label_classes[len + k]`, not the internal-error response. -/
theorem C10_negative_index_success (m : List Rat → Option Int)
    (fc lc : List String) (f : PenguinFeatures) (k : Int)
    (hm : m (reindexRow (encodeRow f) fc) = some k)
    (hlow : -(lc.length : Int) ≤ k) (hneg : k < 0) :
    predict m fc lc f = .ok (lc.getD ((lc.length : Int) + k).toNat "") := by
  have hpy := pyIndex_neg_in_range lc k "" hlow hneg
  simp [predict, hm, hpy]

/-- Witness for C10: a model emitting -1 against the three sample classes
yields the success payload `"Gentoo"` (= `lcSample[3 - 1]`). -/
theorem C10_negative_index_success_witness :
    predict (fun _ => some (-1)) fcSample lcSample fSample
      = Response.ok (lcSample.getD ((lcSample.length : Int) + (-1)).toNat "") :=
  C10_negative_index_success (fun _ => some (-1)) fcSample lcSample fSample (-1)
    rfl (by decide) (by decide)

/-! ## One-hot segment lemmas -/

lemma zip_map_self {α β : Type} (g : α → β) (l : List α) :
    l.zip (l.map g) = l.map (fun a => (a, g a)) := by
  induction l with
  | nil => rfl
  | cons a tl ih => simp [ih]

lemma segmentSum_reindex (ev : EncodedVector) (cols : List String) (seg : List String) :
    segmentSum cols (reindexRow ev cols) seg
      = ((cols.filter (fun c => seg.contains c)).map
          (fun c => ((ev.lookup c).getD 0))).sum := by
  unfold segmentSum reindexRow
  rw [zip_map_self, List.filter_map, List.map_map]
  rfl

lemma sum_map_eq_one_of_single (g : String → Rat) :
    ∀ (l : List String) (a : String), l.Nodup → a ∈ l → g a = 1 →
      (∀ b ∈ l, b ≠ a → g b = 0) → (l.map g).sum = 1 := by
  intro l
  induction l with
  | nil => intro a _ ha; cases ha
  | cons x tl ih =>
    intro a hnd ha h1 h0
    rcases List.mem_cons.mp ha with rfl | hmem
    · simp only [List.map_cons, List.sum_cons]
      have hz : (tl.map g).sum = 0 := List.sum_eq_zero (by
        intro y hy
        rcases List.mem_map.mp hy with ⟨b, hb, rfl⟩
        exact h0 b (List.mem_cons_of_mem _ hb)
          (fun hba => (List.nodup_cons.mp hnd).1 (hba ▸ hb)))
      rw [hz, add_zero, h1]
    · have hxa : x ≠ a := fun h => (List.nodup_cons.mp hnd).1 (h ▸ hmem)
      simp only [List.map_cons, List.sum_cons]
      rw [h0 x (List.mem_cons_self x tl) hxa, zero_add]
      exact ih a (List.nodup_cons.mp hnd).2 hmem h1
        (fun b hb hba => h0 b (List.mem_cons_of_mem _ hb) hba)

lemma lookup_encodeRow_sex_own (f : PenguinFeatures) :
    (((encodeRow f).lookup ("sex_" ++ sexStr f.sex)).getD 0) = 1 := by
  obtain ⟨a, c, d, e, y, sx, il⟩ := f
  cases sx <;> cases il <;> rfl

lemma lookup_encodeRow_island_own (f : PenguinFeatures) :
    (((encodeRow f).lookup ("island_" ++ islandStr f.island)).getD 0) = 1 := by
  obtain ⟨a, c, d, e, y, sx, il⟩ := f
  cases sx <;> cases il <;> rfl

lemma lookup_encodeRow_sex_other (f : PenguinFeatures) (b : String)
    (hb : b ∈ sexIndicatorCols) (hba : b ≠ "sex_" ++ sexStr f.sex) :
    (((encodeRow f).lookup b).getD 0) = 0 := by
  obtain ⟨a, c, d, e, y, sx, il⟩ := f
  simp only [sexIndicatorCols, List.mem_cons, List.not_mem_nil, or_false] at hb
  rcases hb with rfl | rfl <;> cases sx <;> cases il <;>
    first | (exact absurd rfl hba) | rfl

lemma lookup_encodeRow_island_other (f : PenguinFeatures) (b : String)
    (hb : b ∈ islandIndicatorCols) (hba : b ≠ "island_" ++ islandStr f.island) :
    (((encodeRow f).lookup b).getD 0) = 0 := by
  obtain ⟨a, c, d, e, y, sx, il⟩ := f
  simp only [islandIndicatorCols, List.mem_cons, List.not_mem_nil, or_false] at hb
  rcases hb with rfl | rfl | rfl <;> cases sx <;> cases il <;>
    first | (exact absurd rfl hba) | rfl

lemma sex_own_contains (sx : Sex) :
    sexIndicatorCols.contains ("sex_" ++ sexStr sx) = true := by
  cases sx <;> decide

lemma island_own_contains (il : Island) :
    islandIndicatorCols.contains ("island_" ++ islandStr il) = true := by
  cases il <;> decide

/-! ## C4: one-hot sums over the reconciled vector -/

/-- C4: for a record whose indicator columns are feature columns (and the
training-produced column list has no duplicates), the reconciled vector has
length `cols.length` and, for each categorical field, the entries at that
field's indicator positions sum to exactly 1. -/
theorem C4_onehot_sum_one (f : PenguinFeatures) (cols : List String)
    (hnd : cols.Nodup)
    (hsex : ("sex_" ++ sexStr f.sex) ∈ cols)
    (hisl : ("island_" ++ islandStr f.island) ∈ cols) :
    (reindexRow (encodeRow f) cols).length = cols.length ∧
    segmentSum cols (reindexRow (encodeRow f) cols) sexIndicatorCols = 1 ∧
    segmentSum cols (reindexRow (encodeRow f) cols) islandIndicatorCols = 1 := by
  refine ⟨reindexRow_length _ _, ?_, ?_⟩
  · rw [segmentSum_reindex]
    refine sum_map_eq_one_of_single _ _ ("sex_" ++ sexStr f.sex)
      (hnd.filter _) (List.mem_filter.mpr ⟨hsex, sex_own_contains f.sex⟩)
      (lookup_encodeRow_sex_own f) ?_
    intro b hb hba
    exact lookup_encodeRow_sex_other f b (by simpa using (List.mem_filter.mp hb).2) hba
  · rw [segmentSum_reindex]
    refine sum_map_eq_one_of_single _ _ ("island_" ++ islandStr f.island)
      (hnd.filter _) (List.mem_filter.mpr ⟨hisl, island_own_contains f.island⟩)
      (lookup_encodeRow_island_own f) ?_
    intro b hb hba
    exact lookup_encodeRow_island_other f b (by simpa using (List.mem_filter.mp hb).2) hba

/-- Witness for C4 at the concrete sample record and column list. -/
theorem C4_onehot_sum_one_witness :
    segmentSum fcSample (reindexRow (encodeRow fSample) fcSample) sexIndicatorCols = 1 ∧
    segmentSum fcSample (reindexRow (encodeRow fSample) fcSample) islandIndicatorCols = 1 := by
  have h := C4_onehot_sum_one fSample fcSample (by decide) (by decide) (by decide)
  exact ⟨h.2.1, h.2.2⟩

/-! ## C2: unseen categorical combinations -/

/-- C2: for a record whose indicator column names are absent from
`feature_columns` (a categorical combination never observed in training),
reconciliation still produces a vector of length `cols.length` in which
every indicator position (every feature column that is a possible `sex` or
`island` indicator) holds 0, and — assuming the model emits an in-range
index — the service returns a success whose label is a member of
`label_classes`, without error. -/
theorem C2_unseen_combination (m : List Rat → Option Int)
    (cols lc : List String) (f : PenguinFeatures) (k : Int)
    (hsex : ("sex_" ++ sexStr f.sex) ∉ cols)
    (hisl : ("island_" ++ islandStr f.island) ∉ cols)
    (hm : m (reindexRow (encodeRow f) cols) = some k)
    (hk0 : 0 ≤ k) (hklt : k < (lc.length : Int)) :
    (reindexRow (encodeRow f) cols).length = cols.length ∧
    (∀ i : Fin cols.length,
      (cols.get i ∈ sexIndicatorCols ∨ cols.get i ∈ islandIndicatorCols) →
      (reindexRow (encodeRow f) cols).getD i 0 = 0) ∧
    (∃ sp, predict m cols lc f = .ok sp ∧ sp ∈ lc) := by
  refine ⟨reindexRow_length _ _, ?_, ?_⟩
  · intro i hi
    rw [reindexRow_getD]
    rcases hi with hi | hi
    · exact lookup_encodeRow_sex_other f _ hi
        (fun he => hsex (he ▸ cols.get_mem i.1 i.2))
    · exact lookup_encodeRow_island_other f _ hi
        (fun he => hisl (he ▸ cols.get_mem i.1 i.2))
  · obtain ⟨h, hpy⟩ := pyIndex_in_range lc k hk0 hklt
    refine ⟨lc.get ⟨k.toNat, h⟩, ?_, lc.get_mem _ _⟩
    simp [predict, hm, hpy]

/-- Witness for C2: the male/Biscoe sample record against a column list
holding only the `sex_female` and `island_Dream` indicators. -/
theorem C2_unseen_combination_witness :
    (reindexRow (encodeRow fSample)
        ["bill_length_mm", "year", "sex_female", "island_Dream"]).length = 4 ∧
    (∃ sp, predict (fun _ => some 0)
        ["bill_length_mm", "year", "sex_female", "island_Dream"] lcSample fSample
        = .ok sp ∧ sp ∈ lcSample) := by
  have h := C2_unseen_combination (fun _ => some 0)
    ["bill_length_mm", "year", "sex_female", "island_Dream"] lcSample fSample 0
    (by decide) (by decide) rfl (by decide) (by decide)
  exact ⟨h.1, h.2.2⟩

/-! ## C5, C8, C9: handler-level properties -/

lemma handleRequest_state (st : ServerState) (r : RawRequest) :
    (handleRequest st r).2 = st := by
  unfold handleRequest
  cases validateRequest r <;> rfl

lemma validateRequest_error_eq (r : RawRequest) (es : List FieldError)
    (hv : validateRequest r = .error es) : es = fieldErrors r ∧ es ≠ [] := by
  unfold validateRequest at hv
  rcases h1 : checkFloat "bill_length_mm" r.bill_length_mm with e1 | v1 <;>
  rcases h2 : checkFloat "bill_depth_mm" r.bill_depth_mm with e2 | v2 <;>
  rcases h3 : checkFloat "flipper_length_mm" r.flipper_length_mm with e3 | v3 <;>
  rcases h4 : checkFloat "body_mass_g" r.body_mass_g with e4 | v4 <;>
  rcases h5 : checkInt "year" r.year with e5 | v5 <;>
  rcases h6 : checkSex r.sex with e6 | v6 <;>
  rcases h7 : checkIsland r.island with e7 | v7 <;>
  simp_all [fieldErrors, errOf] <;>
  exact fun h => List.cons_ne_nil _ _ (hv.trans h)

/-- C9: every invocation of the prediction operation leaves the shared,
startup-loaded state unchanged: after any request, the loaded model,
`FEATURE_COLUMNS` and `LABEL_CLASSES` are identical to their values before
the call (no handler writes to them). -/
theorem C9_state_unchanged (st : ServerState) (r : RawRequest) :
    (handleRequest st r).2.model = st.model ∧
    (handleRequest st r).2.feature_columns = st.feature_columns ∧
    (handleRequest st r).2.label_classes = st.label_classes := by
  rw [handleRequest_state]
  exact ⟨rfl, rfl, rfl⟩

/-- C5: the service is deterministic — invoking the endpoint twice in
sequence with an identical valid record against the same loaded
model/metadata pair yields identical output (the state after the first call
is the state before it, and the handler is a function of state and
request). -/
theorem C5_deterministic (st : ServerState) (req : RawRequest)
    (f : PenguinFeatures) (_hv : validateRequest req = .ok f) :
    (handleRequest ((handleRequest st req).2) req).1 = (handleRequest st req).1 := by
  rw [handleRequest_state]

/-- The server state used by concrete witnesses: a model that always emits
class index 0, with the sample metadata pair. -/
def stSample : ServerState :=
  { model := fun _ => some 0, feature_columns := fcSample, label_classes := lcSample }

/-- Witness for C5 at the concrete sample state and the valid scenario
request. -/
theorem C5_deterministic_witness :
    (handleRequest ((handleRequest stSample rawSample).2) rawSample).1
      = (handleRequest stSample rawSample).1 :=
  C5_deterministic stSample rawSample fSample rfl

/-- C8: a request that fails validation is rejected before the
encode/reconcile/predict core runs — the 400 response carries the nonempty
structured per-field error list and does not depend on the loaded model or
metadata in any way. -/
theorem C8_validation_rejected (st : ServerState) (r : RawRequest)
    (es : List FieldError) (hv : validateRequest r = .error es) :
    (handleRequest st r).1 = .clientError 400 es ∧
    es ≠ [] ∧
    ∀ st' : ServerState, (handleRequest st' r).1 = (handleRequest st r).1 := by
  obtain ⟨hes, hne⟩ := validateRequest_error_eq r es hv
  refine ⟨by simp [handleRequest, hv], hne, fun st' => by simp [handleRequest, hv]⟩

/-- A concrete invalid request: a mistyped `bill_length_mm` and a missing
`flipper_length_mm`. -/
def rawBad : RawRequest :=
  { bill_length_mm := some (.str "not_a_float"), bill_depth_mm := some (.num 18),
    flipper_length_mm := none, body_mass_g := some (.num 4000),
    year := some (.num 2008), sex := some (.str "male"), island := some (.str "Biscoe") }

/-- Witness for C8 at the concrete invalid request. -/
theorem C8_validation_rejected_witness :
    (handleRequest stSample rawBad).1
      = .clientError 400 [("bill_length_mm", "Input should be a valid number"),
                          ("flipper_length_mm", "Field required")] ∧
    ([("bill_length_mm", "Input should be a valid number"),
      ("flipper_length_mm", "Field required")] : List FieldError) ≠ [] :=
  ⟨(C8_validation_rejected stSample rawBad _ rfl).1,
   (C8_validation_rejected stSample rawBad _ rfl).2.1⟩
